import Mathlib

/-!
Shallow embedding of the Feather Garage Controller (CircuitPython sources
`code.py` and `config.py`) together with theorems settling the spec claims.

Modelling conventions:
  * Times and distances (Python floats from `time.monotonic()` and the
    sonar driver) are embedded as rationals.
  * `garage_state.door_status` holds Python values `None`, `"Open"`,
    `"Closed"`, and — after the bug on line 230 of `code.py` — the
    un-awaited coroutine object returned by `get_door_state()`.  These four
    possibilities are the constructors of `DoorStatus`.
  * Side effects (task spawns, sleeps, publishes, relay writes) are
    recorded as explicit event lists.
  * Python exceptions that the code can actually raise are modelled with
    `PyErr` (`TypeError` from `json.dumps(garage_state)` on line 234,
    `NameError` from reading the unbound local `door_error_time` on
    line 235).
  * `microcontroller.reset()` never returns on the device, so in the
    messaging-link model a reset is a terminal `Outcome.restart`: no code
    after it (in particular no `finally` body) runs.
-/

/-! ## config.py -/

def SENSOR_UPDATE_INTERVAL : ℚ := 60

def RTC_UPDATE_INTERVAL : ℚ := 43200

def DOOR_CLOSE_DELAY : ℚ := 12

def MOTION_TIMEOUT : ℚ := 300

def DOOR_DISTANCE : ℚ := 90

def GARAGE_CLOSE_AFTER : ℕ := 20

def GARAGE_CLOSE_BEFORE : ℕ := 7

/-! ## Data model (`Garage_state`, code.py lines 34-51) -/

/-- Values the Python attribute `garage_state.door_status` can hold:
`None` (initial), the strings `"Open"` and `"Closed"`, and the un-awaited
coroutine object that line 230 of `code.py` assigns. -/
inductive DoorStatus
  | unknown
  | Open
  | Closed
  | coro
  deriving DecidableEq

/-- `class Garage_state`, fields in the order of `__init__` (lines 38-42). -/
structure Garage_state where
  door_error : Bool
  motion : Option Bool
  door_status : DoorStatus
  motion_timeout : ℚ
  pause_door_check : Bool
  deriving DecidableEq

/-- `Garage_state.__init__` (code.py lines 37-42). -/
def Garage_state.init : Garage_state :=
  { door_error := false
    motion := none
    door_status := DoorStatus.unknown
    motion_timeout := 0
    pause_door_check := false }

/-! ## Events emitted by the tasks -/

inductive Topic
  | environment
  | garageState
  | doorRequest
  | system
  deriving DecidableEq

inductive Payload
  | str (s : String)
  | stateJson (door_status : DoorStatus) (door_error : Bool) (motion : Option Bool)
  deriving DecidableEq

inductive Ev
  | spawnOpener
  | sleep (secs : ℚ)
  | publishCall (topic : Topic) (payload : Payload)
  deriving DecidableEq

inductive PyErr
  | typeError
  | nameError
  deriving DecidableEq

/-! ## Relay actuator (`activate_opener`, code.py lines 54-61) -/

inductive Act
  | setPause (b : Bool)
  | setRelay (b : Bool)
  | sleep (secs : ℚ)
  deriving DecidableEq

/-- The statement sequence of `activate_opener` (code.py lines 56-61):
pause the door check, relay high, sleep 2 s, relay low, sleep
`DOOR_CLOSE_DELAY`, unpause. -/
def activate_opener : List Act :=
  [Act.setPause true, Act.setRelay true, Act.sleep 2, Act.setRelay false,
   Act.sleep DOOR_CLOSE_DELAY, Act.setPause false]

/-- The shared state together with the relay output pin. -/
structure OpenerView where
  gs : Garage_state
  relay : Bool
  deriving DecidableEq

def applyAct (st : OpenerView) (a : Act) : OpenerView :=
  match a with
  | Act.setPause b => { st with gs := { st.gs with pause_door_check := b } }
  | Act.setRelay b => { st with relay := b }
  | Act.sleep _ => st

def runActs (acts : List Act) (st : OpenerView) : OpenerView :=
  acts.foldl applyAct st

/-! ## Motion monitor (`get_motion_state`, code.py lines 64-80)

One iteration of the `while True` loop.  `pir` is the presence-sensor
reading, `now` the value of `time.monotonic()` during the iteration.
The `try`/`except KeyError` around the timeout comparison can never fire
(a float comparison raises no `KeyError`), so it is a no-op. -/

def get_motion_state_step (pir : Bool) (now : ℚ) (s : Garage_state) : Garage_state :=
  let s1 := if pir then { s with motion_timeout := now + MOTION_TIMEOUT, motion := some true }
            else s
  if s1.motion_timeout < now then { s1 with motion := some false } else s1

/-- Iterate the motion monitor over a list of (sensor reading, time) pairs. -/
def runMotion (ticks : List (Bool × ℚ)) (s : Garage_state) : Garage_state :=
  ticks.foldl (fun st p => get_motion_state_step p.1 p.2 st) s

/-! ## Door position monitor (`get_door_state`, code.py lines 83-96)

One iteration of the `while True` loop; `dist` is the sonar reading. -/

/-- Classification on lines 90-93: `Open` iff `distance < DOOR_DISTANCE`. -/
def classifyDoor (dist : ℚ) : DoorStatus :=
  if dist < DOOR_DISTANCE then DoorStatus.Open else DoorStatus.Closed

def get_door_state_step (dist : ℚ) (s : Garage_state) : Garage_state × List Ev :=
  if s.pause_door_check then (s, [])
  else
    let previous := s.door_status
    let s1 := { s with door_status := classifyDoor dist }
    if previous ≠ s1.door_status then
      (s1, [Ev.publishCall Topic.garageState
              (Payload.stateJson s1.door_status s1.door_error s1.motion)])
    else (s1, [])

/-! ## MQTT message callback (`message`, code.py lines 158-165) -/

/-- The `on_message` callback: on the door-request topic, a payload equal to
the string `"True"` triggers one `"False"` republish and one spawned
`activate_opener` task; any other payload (or topic) does nothing. -/
def message (topic : Topic) (msg : String) : List Ev :=
  if topic = Topic.doorRequest then
    if msg = ("True") then
      [Ev.publishCall Topic.doorRequest (Payload.str ("False")), Ev.spawnOpener]
    else []
  else []

/-- Events produced by a sequence of message deliveries (each delivery runs
the callback once). -/
def handleDeliveries (msgs : List (Topic × String)) : List Ev :=
  (msgs.map (fun m => message m.1 m.2)).flatten

/-! ## Auto-close policy (`check_open_time`, code.py lines 219-237)

The single evaluation of the policy.  `hour` is `rtc.datetime.tm_hour`,
`now` is `time.monotonic()`, `door_error_time` is the binding of the
function-local variable of that name at the point line 235 reads it
(`none` = unbound, which raises `NameError`; in the source the variable is
local and `check_open_time` is invoked once, so it is always unbound
there).  Line 230 assigns the un-awaited coroutine `get_door_state()` to
`door_status`; line 234 calls `json.dumps(garage_state)`, which raises
`TypeError` because `Garage_state` is not JSON serializable. -/

structure COTResult where
  state : Garage_state
  events : List Ev
  err : Option PyErr
  door_error_time : Option ℚ
  deriving DecidableEq

def check_open_time (hour : ℕ) (now : ℚ) (s : Garage_state)
    (door_error_time : Option ℚ) : COTResult :=
  if GARAGE_CLOSE_AFTER ≤ hour ∨ hour ≤ GARAGE_CLOSE_BEFORE then
    if s.door_status = DoorStatus.Open then
      if s.door_error = false then
        if s.motion = some false then
          let s1 := { s with door_status := DoorStatus.coro }
          let upd :=
            if s1.door_status = DoorStatus.Open then
              ({ s1 with door_error := true }, some now)
            else (s1, door_error_time)
          { state := upd.1
            events := [Ev.spawnOpener, Ev.sleep DOOR_CLOSE_DELAY]
            err := some PyErr.typeError
            door_error_time := upd.2 }
        else { state := s, events := [], err := none, door_error_time := door_error_time }
      else
        match door_error_time with
        | none =>
            { state := s, events := [], err := some PyErr.nameError, door_error_time := none }
        | some t =>
            if t + 900 < now then
              { state := { s with door_error := false }, events := [], err := none,
                door_error_time := some t }
            else
              { state := s, events := [], err := none, door_error_time := some t }
    else { state := s, events := [], err := none, door_error_time := door_error_time }
  else { state := s, events := [], err := none, door_error_time := door_error_time }

/-! ## Messaging link resilience (`publish_to_mqtt` lines 168-186,
`mqtt_client_loop` lines 127-147)

`Oracle` records how the three MQTT calls of one pass behave:
`is_connected`, `reconnect`, and the call in the `finally` block
(`publish` for `publish_to_mqtt`, `loop` for `mqtt_client_loop`).
`MMQTTException` is the protocol-level failure, `OSError` the
transport-level one.  `microcontroller.reset()` is terminal
(`Outcome.restart`): the `finally` body does not run after it. -/

inductive NetErr
  | protoErr
  | transErr
  deriving DecidableEq, Fintype

structure Oracle where
  is_connected : Option NetErr
  reconnect : Option NetErr
  finalCall : Option NetErr
  deriving DecidableEq, Fintype

inductive MEv
  | reconnectAttempt
  | finalAttempt
  | sleepOne
  deriving DecidableEq

inductive Outcome
  | done
  | restart
  deriving DecidableEq

/-- The `finally` block: always attempt the wrapped call; a protocol- or
transport-level failure there resets the device. -/
def tryFinalBlock (pre : List MEv) (o : Oracle) : List MEv × Outcome :=
  match o.finalCall with
  | none => (pre ++ [MEv.finalAttempt], Outcome.done)
  | some _ => (pre ++ [MEv.finalAttempt], Outcome.restart)

def publish_to_mqtt (o : Oracle) : List MEv × Outcome :=
  match o.is_connected with
  | none => tryFinalBlock [] o
  | some NetErr.protoErr =>
      match o.reconnect with
      | none => tryFinalBlock [MEv.reconnectAttempt] o
      | some _ => ([MEv.reconnectAttempt], Outcome.restart)
  | some NetErr.transErr => ([], Outcome.restart)

/-- One iteration of the `while True` loop in `mqtt_client_loop`; identical
error structure, with `mqtt_client.loop()` in the `finally` block and a
1-second sleep after a pass that did not reset. -/
def mqtt_client_loop_iter (o : Oracle) : List MEv × Outcome :=
  let r :=
    match o.is_connected with
    | none => tryFinalBlock [] o
    | some NetErr.protoErr =>
        match o.reconnect with
        | none => tryFinalBlock [MEv.reconnectAttempt] o
        | some _ => ([MEv.reconnectAttempt], Outcome.restart)
    | some NetErr.transErr => ([], Outcome.restart)
  match r with
  | (evs, Outcome.done) => (evs ++ [MEv.sleepOne], Outcome.done)
  | (evs, Outcome.restart) => (evs, Outcome.restart)

/-- The error path (the `try`/`except` around `is_connected`) completes
without a device reset exactly when the connection check succeeds, or it
fails at protocol level and the reconnect succeeds. -/
def errorPathNoRestart (o : Oracle) : Bool :=
  o.is_connected == none ||
    (o.is_connected == some NetErr.protoErr && o.reconnect == none)

/-! ## Task coordinator (`main`, code.py lines 239-251) -/

inductive TaskId
  | get_motion_state
  | get_door_state
  | get_sensor_data
  | get_system_data
  | update_rtc
  | check_open_time
  | mqtt_client_loop
  | mqtt_publish_loop
  deriving DecidableEq

/-- The tasks `main` creates, in order (lines 242-249); each appears once. -/
def mainTasks : List TaskId :=
  [TaskId.get_motion_state, TaskId.get_door_state, TaskId.get_sensor_data,
   TaskId.get_system_data, TaskId.update_rtc, TaskId.check_open_time,
   TaskId.mqtt_client_loop, TaskId.mqtt_publish_loop]

inductive BodyShape
  | runsOnce
  | loopsForever
  deriving DecidableEq

/-- Loop structure of each task body: `update_rtc` (lines 189-216) and
`check_open_time` (lines 219-237) contain no loop and return after one
evaluation; every other task body is a `while True` loop. -/
def taskBody : TaskId → BodyShape
  | TaskId.update_rtc => BodyShape.runsOnce
  | TaskId.check_open_time => BodyShape.runsOnce
  | _ => BodyShape.loopsForever

/-- Number of body evaluations a task performs when the scheduler offers it
`ticks` opportunities to run: a one-shot body runs at most once, a
`while True` body runs every time. -/
def taskEvalCount (t : TaskId) (ticks : ℕ) : ℕ :=
  match taskBody t with
  | BodyShape.runsOnce => min ticks 1
  | BodyShape.loopsForever => ticks

/-! ## Helper lemmas -/

/-- Events emitted by one evaluation of `check_open_time`: the opener spawn
and the sleep happen exactly when the whole guard chain passes; every other
path emits nothing. -/
theorem check_open_time_events (hour : ℕ) (now : ℚ) (s : Garage_state) (det : Option ℚ) :
    (check_open_time hour now s det).events =
      if (GARAGE_CLOSE_AFTER ≤ hour ∨ hour ≤ GARAGE_CLOSE_BEFORE) ∧
          s.door_status = DoorStatus.Open ∧ s.door_error = false ∧ s.motion = some false
      then [Ev.spawnOpener, Ev.sleep DOOR_CLOSE_DELAY] else [] := by
  by_cases hw : GARAGE_CLOSE_AFTER ≤ hour ∨ hour ≤ GARAGE_CLOSE_BEFORE
  · by_cases hd : s.door_status = DoorStatus.Open
    · by_cases he : s.door_error = false
      · by_cases hm : s.motion = some false
        · simp [check_open_time, hw, hd, he, hm]
        · simp [check_open_time, hw, hd, he, hm]
      · rcases det with _ | t
        · simp [check_open_time, hw, hd, he]
        · by_cases ht : t + 900 < now <;> simp [check_open_time, hw, hd, he, ht]
    · simp [check_open_time, hw, hd]
  · simp [check_open_time, hw]

/-- `check_open_time` never writes `pause_door_check`. -/
theorem check_open_time_pause (hour : ℕ) (now : ℚ) (s : Garage_state) (det : Option ℚ) :
    (check_open_time hour now s det).state.pause_door_check = s.pause_door_check := by
  by_cases hw : GARAGE_CLOSE_AFTER ≤ hour ∨ hour ≤ GARAGE_CLOSE_BEFORE
  · by_cases hd : s.door_status = DoorStatus.Open
    · by_cases he : s.door_error = false
      · by_cases hm : s.motion = some false
        · simp [check_open_time, hw, hd, he, hm]
        · simp [check_open_time, hw, hd, he, hm]
      · rcases det with _ | t
        · simp [check_open_time, hw, hd, he]
        · by_cases ht : t + 900 < now <;> simp [check_open_time, hw, hd, he, ht]
    · simp [check_open_time, hw, hd]
  · simp [check_open_time, hw]

/-- The motion-monitor step never assigns `None` to `motion`. -/
theorem get_motion_state_step_preserves_known (pir : Bool) (t : ℚ) (s : Garage_state)
    (hs : s.motion ≠ none) : (get_motion_state_step pir t s).motion ≠ none := by
  cases pir <;> simp only [get_motion_state_step, if_true, if_false, Bool.false_eq_true] <;>
    split_ifs <;> simp_all

/-! ## Claims -/

/-- C1: one evaluation of the auto-close policy invokes the relay actuator
(spawns `activate_opener`) if and only if the current hour is in the
midnight-wrapping close window (`hour ≥ GARAGE_CLOSE_AFTER ∨
hour ≤ GARAGE_CLOSE_BEFORE`), the door status is `Open`, `door_error` is
false, and `motion` is exactly `false` (so never when motion is true or
unknown); with the default window 20/7, hours 21 and 3 are in the window
and hour 12 is not. -/
theorem C1_autoclose_guard_iff (hour : ℕ) (now : ℚ) (s : Garage_state) (det : Option ℚ) :
    (Ev.spawnOpener ∈ (check_open_time hour now s det).events ↔
      ((GARAGE_CLOSE_AFTER ≤ hour ∨ hour ≤ GARAGE_CLOSE_BEFORE) ∧
        s.door_status = DoorStatus.Open ∧ s.door_error = false ∧ s.motion = some false)) ∧
    (GARAGE_CLOSE_AFTER ≤ 21 ∨ 21 ≤ GARAGE_CLOSE_BEFORE) ∧
    (GARAGE_CLOSE_AFTER ≤ 3 ∨ 3 ≤ GARAGE_CLOSE_BEFORE) ∧
    ¬(GARAGE_CLOSE_AFTER ≤ 12 ∨ 12 ≤ GARAGE_CLOSE_BEFORE) := by
  refine ⟨?_, by decide, by decide, by decide⟩
  rw [check_open_time_events]
  by_cases h : (GARAGE_CLOSE_AFTER ≤ hour ∨ hour ≤ GARAGE_CLOSE_BEFORE) ∧
      s.door_status = DoorStatus.Open ∧ s.door_error = false ∧ s.motion = some false
  · simp [h]
  · simp [h]

/-- C2 (code bug): on entering the close attempt (hour 22 in the window,
door `Open`, no error, motion exactly false) the code spawns the opener and
sleeps, but then assigns the un-awaited coroutine `get_door_state()` to
`door_status` instead of re-reading the sensor; the coroutine never equals
`"Open"`, so `door_error` stays false and no error timestamp is recorded,
and the final `publish_to_mqtt(..., json.dumps(garage_state))` raises
`TypeError`, so no state snapshot is published. -/
theorem C2_closing_reread_bug :
    check_open_time 22 100
        { door_error := false, motion := some false, door_status := DoorStatus.Open,
          motion_timeout := 0, pause_door_check := false } none =
      { state := { door_error := false, motion := some false,
                   door_status := DoorStatus.coro, motion_timeout := 0,
                   pause_door_check := false }
        events := [Ev.spawnOpener, Ev.sleep DOOR_CLOSE_DELAY]
        err := some PyErr.typeError
        door_error_time := none } := by
  decide

/-- C3 (code bug): in the only state a backoff evaluation could see
(`door_error = true`, `door_error_time` unbound since it is a function
local and the policy task is scheduled exactly once and never re-invoked),
the `elif` reads the unbound local and raises `NameError`; `door_error` is
never cleared and no event is emitted, so the claimed
ErrorBackoff-to-Idle transition after 900 seconds cannot happen. -/
theorem C3_backoff_clear_unreachable :
    check_open_time 22 2000
        { door_error := true, motion := some false, door_status := DoorStatus.Open,
          motion_timeout := 0, pause_door_check := false } none =
      { state := { door_error := true, motion := some false,
                   door_status := DoorStatus.Open, motion_timeout := 0,
                   pause_door_check := false }
        events := []
        err := some PyErr.nameError
        door_error_time := none } ∧
    mainTasks.count TaskId.check_open_time = 1 ∧
    taskBody TaskId.check_open_time = BodyShape.runsOnce := by
  decide

/-- C4 counterexample: if the retained `"True"` request is redelivered
before the `"False"` acknowledgment lands, the callback fires once per
delivery and schedules two opener activations, refuting "never more than
one activation per request"; moreover a merely truthy payload such as
`"true"` triggers nothing at all (the code compares against the exact
string `"True"`). -/
theorem C4_redelivery_counterexample :
    (handleDeliveries [(Topic.doorRequest, ("True")), (Topic.doorRequest, ("True"))]).count
        Ev.spawnOpener = 2 ∧
    message Topic.doorRequest ("true") = [] := by
  decide

/-- C4 amended: each delivery whose topic is the door-request topic and
whose payload is exactly the string `"True"` produces exactly one `"False"`
republish followed by exactly one scheduled opener activation, and any
other delivery produces nothing; consequently a run of deliveries schedules
exactly as many activations as it contains `(door-request, "True")`
deliveries — a redelivered retained request yields an additional
activation. -/
theorem C4_per_delivery_behavior (topic : Topic) (msg : String) :
    (message topic msg =
      if topic = Topic.doorRequest ∧ msg = ("True") then
        [Ev.publishCall Topic.doorRequest (Payload.str ("False")), Ev.spawnOpener]
      else []) ∧
    ∀ msgs : List (Topic × String),
      (handleDeliveries msgs).count Ev.spawnOpener =
        msgs.count (Topic.doorRequest, ("True")) := by
  constructor
  · by_cases ht : topic = Topic.doorRequest
    · by_cases hm : msg = ("True")
      · simp [message, ht, hm]
      · simp [message, ht, hm]
    · simp [message, ht]
  · intro msgs
    induction msgs with
    | nil => rfl
    | cons m rest ih =>
      have hstep : handleDeliveries (m :: rest) = message m.1 m.2 ++ handleDeliveries rest := rfl
      rw [hstep, List.count_append, ih, List.count_cons]
      by_cases hmt : m = (Topic.doorRequest, ("True"))
      · rw [hmt]
        simp [message]
        omega
      · have hsplit : ¬(m.1 = Topic.doorRequest ∧ m.2 = ("True")) := by
          intro hc
          exact hmt (Prod.ext hc.1 hc.2)
        by_cases h1 : m.1 = Topic.doorRequest
        · have h2 : ¬(m.2 = ("True")) := fun h2 => hsplit ⟨h1, h2⟩
          simp [message, h1, h2, hmt]
        · simp [message, h1, hmt]

/-- C5: on every unpaused iteration of the door position monitor, the door
is classified `Open` exactly when the measured distance is strictly below
the `DOOR_DISTANCE` threshold (default 90) and `Closed` exactly at or above
it, and a garage-state publish happens on that iteration if and only if the
new classification differs from the immediately preceding `door_status`. -/
theorem C5_door_classification (dist : ℚ) (de : Bool) (mo : Option Bool)
    (ds : DoorStatus) (mt : ℚ) :
    (get_door_state_step dist ⟨de, mo, ds, mt, false⟩).1.door_status = classifyDoor dist ∧
    (classifyDoor dist = DoorStatus.Open ↔ dist < DOOR_DISTANCE) ∧
    (classifyDoor dist = DoorStatus.Closed ↔ DOOR_DISTANCE ≤ dist) ∧
    ((get_door_state_step dist ⟨de, mo, ds, mt, false⟩).2 ≠ [] ↔ ds ≠ classifyDoor dist) ∧
    ((get_door_state_step dist ⟨de, mo, ds, mt, false⟩).2 =
      if ds ≠ classifyDoor dist then
        [Ev.publishCall Topic.garageState (Payload.stateJson (classifyDoor dist) de mo)]
      else []) ∧
    DOOR_DISTANCE = 90 := by
  refine ⟨?_, ?_, ?_, ?_, ?_, rfl⟩
  · by_cases hne : ds ≠ classifyDoor dist <;> simp [get_door_state_step, hne]
  · by_cases hlt : dist < DOOR_DISTANCE <;> simp [classifyDoor, hlt]
  · by_cases hlt : dist < DOOR_DISTANCE
    · simp [classifyDoor, hlt, not_le]
    · simp [classifyDoor, hlt]
      exact le_of_not_lt hlt
  · by_cases hne : ds ≠ classifyDoor dist <;> simp [get_door_state_step, hne]
  · by_cases hne : ds ≠ classifyDoor dist <;> simp [get_door_state_step, hne]

/-- C6: while `pause_door_check` is true the door position monitor skips the
iteration completely: the shared state (in particular `door_status`) is left
unchanged and nothing is published, regardless of the distance reading. -/
theorem C6_paused_skips (dist : ℚ) (de : Bool) (mo : Option Bool)
    (ds : DoorStatus) (mt : ℚ) :
    get_door_state_step dist ⟨de, mo, ds, mt, true⟩ = (⟨de, mo, ds, mt, true⟩, []) := by
  simp [get_door_state_step]

/-- C7: `activate_opener` first sets `pause_door_check` true, drives the
relay high, sleeps the 2-second pulse, drives it low, sleeps the
`DOOR_CLOSE_DELAY` settle delay (default 12 s), and clears
`pause_door_check` before returning; from any starting state the final
state has `pause_door_check = false` and the relay low (independent of
whether the door moved), `pause_door_check` starts false at
initialization, and no other component's step writes `pause_door_check`
(the motion monitor, door monitor, and auto-close policy all preserve it;
the message callback mutates no shared state at all). -/
theorem C7_opener_pause_discipline (s : Garage_state) (r : Bool) (pir : Bool)
    (now dist tnow : ℚ) (hour : ℕ) (det : Option ℚ) :
    (runActs activate_opener ⟨s, r⟩).gs = { s with pause_door_check := false } ∧
    (runActs activate_opener ⟨s, r⟩).relay = false ∧
    (runActs (activate_opener.take 1) ⟨s, r⟩).gs.pause_door_check = true ∧
    (runActs (activate_opener.take 2) ⟨s, r⟩).relay = true ∧
    (runActs (activate_opener.take 4) ⟨s, r⟩).relay = false ∧
    (runActs (activate_opener.take 4) ⟨s, r⟩).gs.pause_door_check = true ∧
    activate_opener[2]? = some (Act.sleep 2) ∧
    activate_opener[4]? = some (Act.sleep DOOR_CLOSE_DELAY) ∧
    DOOR_CLOSE_DELAY = 12 ∧
    Garage_state.init.pause_door_check = false ∧
    (get_motion_state_step pir now s).pause_door_check = s.pause_door_check ∧
    (get_door_state_step dist s).1.pause_door_check = s.pause_door_check ∧
    (check_open_time hour tnow s det).state.pause_door_check = s.pause_door_check := by
  refine ⟨rfl, rfl, rfl, rfl, rfl, rfl, rfl, rfl, rfl, rfl, ?_, ?_,
    check_open_time_pause hour tnow s det⟩
  · cases pir <;> simp [get_motion_state_step] <;> split_ifs <;> rfl
  · by_cases hp : s.pause_door_check <;> simp [get_door_state_step, hp] <;>
      split_ifs <;> rfl

/-- C8 counterexample: on a transport-level failure (`OSError`) at the
connection check, `microcontroller.reset()` fires immediately and nothing
after it runs, so the pass makes zero reconnect attempts and zero normal
publish/loop attempts — refuting the claim that "after the error path, one
normal publish/loop attempt is always made". -/
theorem C8_restart_skips_final_attempt :
    publish_to_mqtt
        { is_connected := some NetErr.transErr, reconnect := none, finalCall := none } =
      ([], Outcome.restart) ∧
    mqtt_client_loop_iter
        { is_connected := some NetErr.transErr, reconnect := none, finalCall := none } =
      ([], Outcome.restart) := by
  decide

/-- C8 amended: for every publish and every liveness iteration, a
protocol-level failure at the connection check triggers exactly one
reconnect attempt and a failed reconnect triggers a device restart; a
transport-level failure triggers an immediate restart with no reconnect
and no further attempt; whenever the error path completes without
restarting, exactly one normal publish/loop attempt is made, and a
transport- or protocol-level failure there also restarts — so no error in
this subsystem is tolerated across more than one retry. -/
theorem C8_resilience_policy : ∀ o : Oracle,
    (publish_to_mqtt o).1.count MEv.reconnectAttempt =
      (if o.is_connected = some NetErr.protoErr then 1 else 0) ∧
    (publish_to_mqtt o).1.count MEv.finalAttempt =
      (if errorPathNoRestart o then 1 else 0) ∧
    ((publish_to_mqtt o).2 = Outcome.restart ↔
      (o.is_connected = some NetErr.transErr ∨
       (o.is_connected = some NetErr.protoErr ∧ o.reconnect ≠ none) ∨
       (errorPathNoRestart o = true ∧ o.finalCall ≠ none))) ∧
    (mqtt_client_loop_iter o).1.count MEv.reconnectAttempt =
      (if o.is_connected = some NetErr.protoErr then 1 else 0) ∧
    (mqtt_client_loop_iter o).1.count MEv.finalAttempt =
      (if errorPathNoRestart o then 1 else 0) ∧
    (mqtt_client_loop_iter o).2 = (publish_to_mqtt o).2 := by
  decide

/-- C9: `main` schedules each of the eight tasks exactly once;
`check_open_time` and `update_rtc` have no loop and finish after a single
evaluation, so the close-window condition is evaluated and the real-time
clock is set at most once per process lifetime, while the sensor,
telemetry, and messaging task bodies are `while True` loops that run once
per scheduling opportunity forever. -/
theorem C9_single_shot_policy_and_rtc :
    mainTasks.count TaskId.update_rtc = 1 ∧
    mainTasks.count TaskId.check_open_time = 1 ∧
    mainTasks.length = 8 ∧
    (∀ t : TaskId, t ∈ mainTasks) ∧
    taskBody TaskId.update_rtc = BodyShape.runsOnce ∧
    taskBody TaskId.check_open_time = BodyShape.runsOnce ∧
    taskBody TaskId.get_motion_state = BodyShape.loopsForever ∧
    taskBody TaskId.get_door_state = BodyShape.loopsForever ∧
    taskBody TaskId.get_sensor_data = BodyShape.loopsForever ∧
    taskBody TaskId.get_system_data = BodyShape.loopsForever ∧
    taskBody TaskId.mqtt_client_loop = BodyShape.loopsForever ∧
    taskBody TaskId.mqtt_publish_loop = BodyShape.loopsForever ∧
    (∀ n : ℕ, taskEvalCount TaskId.update_rtc n ≤ 1 ∧
      taskEvalCount TaskId.check_open_time n ≤ 1 ∧
      taskEvalCount TaskId.get_door_state n = n ∧
      taskEvalCount TaskId.mqtt_client_loop n = n) := by
  refine ⟨by decide, by decide, by decide, ?_, rfl, rfl, rfl, rfl, rfl, rfl,
    rfl, rfl, ?_⟩
  · intro t
    cases t <;> decide
  · intro n
    exact ⟨Nat.min_le_right n 1, Nat.min_le_right n 1, rfl, rfl⟩

/-- C10: since `motion_timeout` is initialized to 0 and the monotonic clock
is positive once the monitor runs, a first iteration that reads the
presence sensor inactive sets `motion` to `false` rather than leaving it
unknown; after the first iteration completes, `motion` is never `None`
again on any continuation of the execution, so the unknown-motion state
that blocks auto-close exists only before the monitor's first tick. -/
theorem C10_motion_never_unknown (now : ℚ) (h : 0 < now) :
    (get_motion_state_step false now Garage_state.init).motion = some false ∧
    (∀ pir : Bool, (get_motion_state_step pir now Garage_state.init).motion ≠ none) ∧
    (∀ (pir : Bool) (t : ℚ) (s : Garage_state),
        s.motion ≠ none → (get_motion_state_step pir t s).motion ≠ none) ∧
    (∀ (ticks : List (Bool × ℚ)) (pir : Bool),
        (runMotion ticks (get_motion_state_step pir now Garage_state.init)).motion ≠ none) := by
  have hfirst : (get_motion_state_step false now Garage_state.init).motion = some false := by
    simp [get_motion_state_step, Garage_state.init, h]
  have hany : ∀ pir : Bool, (get_motion_state_step pir now Garage_state.init).motion ≠ none := by
    intro pir
    cases pir
    · rw [hfirst]; exact Option.noConfusion
    · simp [get_motion_state_step, Garage_state.init] <;> split_ifs <;> simp
  have hgen : ∀ (ticks : List (Bool × ℚ)) (s : Garage_state), s.motion ≠ none →
      (runMotion ticks s).motion ≠ none := by
    intro ticks
    induction ticks with
    | nil => intro s hs; exact hs
    | cons p rest ih =>
        intro s hs
        exact ih _ (get_motion_state_step_preserves_known p.1 p.2 s hs)
  exact ⟨hfirst, hany, get_motion_state_step_preserves_known,
    fun ticks pir => hgen ticks _ (hany pir)⟩

/-- C10 witness: the theorem instantiated at `now = 1`. -/
theorem C10_motion_never_unknown_witness :
    (0:ℚ) < 1 ∧
    ((get_motion_state_step false 1 Garage_state.init).motion = some false ∧
     (∀ pir : Bool, (get_motion_state_step pir 1 Garage_state.init).motion ≠ none) ∧
     (∀ (pir : Bool) (t : ℚ) (s : Garage_state),
         s.motion ≠ none → (get_motion_state_step pir t s).motion ≠ none) ∧
     (∀ (ticks : List (Bool × ℚ)) (pir : Bool),
         (runMotion ticks (get_motion_state_step pir 1 Garage_state.init)).motion ≠ none)) :=
  ⟨by decide, C10_motion_never_unknown 1 (by decide)⟩
